import Mathlib

/-!
Verification of the healthcare triage chatbot backend.

This file gives a shallow embedding of the code in
src/backend/app/main.py (the FastAPI backend: the RasaClient dialogue
gateway, the ConnectionManager websocket registry, the chat REST handler
and the websocket chat loop) and src/rasa/actions/actions.py (the
ActionAssessSymptoms urgency classifier), and proves properties of the
embedded definitions.

Conventions of the embedding:
 - Python strings are Lean String; Python str.lower is mapped over the
   character list (pyLower) so that concrete instances reduce in the
   kernel.
 - The network is an oracle Net : url, sender, message to an
   AttemptOutcome, modelling the result of one httpx POST to
   url ++ "/webhooks/rest/webhook": a raised connect error, a raised
   timeout, any other raised exception, or an HTTP response with a
   status code and a decoded JSON body (a list of response dicts).
 - A Python dict returned by Rasa is modelled by RasaResponse, keeping
   the two keys the backend reads (text and buttons), each optional as
   dict.get returns a default when a key is absent.
 - Exceptions are modelled explicitly: an operation that the code wraps
   in try/except is embedded with the raising outcome as an explicit
   case (AttemptOutcome for the gateway, a Bool write-success flag for
   websocket sends, an Option String oracle for the catch-all handler
   of the REST endpoint).
-/

namespace HealthcareChatbot

/-- Tests whether the second character list is a prefix of the first
argument order: charsStartWith needle hay. -/
def charsStartWith : List Char → List Char → Bool
  | [], _ => true
  | _ :: _, [] => false
  | a :: as, b :: bs => a == b && charsStartWith as bs

/-- Python substring containment (needle in hay) on character lists:
true when needle occurs contiguously somewhere in hay. -/
def charsContain (hay needle : List Char) : Bool :=
  match hay with
  | [] => needle.isEmpty
  | _ :: rest => charsStartWith needle hay || charsContain rest needle

/-- Python needle in hay on strings. -/
def strContains (hay needle : String) : Bool :=
  charsContain hay.data needle.data

/-- Python str.lower, applied characterwise. -/
def pyLower (s : String) : String :=
  ⟨s.data.map Char.toLower⟩

/-- Python " ".join(parts). -/
def joinWithSpace : List String → String
  | [] => ""
  | s :: rest => rest.foldl (fun acc x => acc ++ " " ++ x) s

/-- A suggested-action button of a Rasa reply: a title and a payload. -/
structure Button where
  title : String
  payload : String
deriving Repr, DecidableEq

/-- One element of the JSON array returned by the Rasa REST webhook,
keeping the keys the backend reads; none models an absent key. -/
structure RasaResponse where
  text : Option String := none
  buttons : Option (List Button) := none
deriving Repr, DecidableEq

/-- Outcome of one httpx POST to a candidate Rasa url, as observed by
RasaClient.send_message: httpx.ConnectError raised, httpx.TimeoutException
raised, any other exception raised, or an HTTP response carrying a status
code and the decoded JSON body. -/
inductive AttemptOutcome where
  | connectError
  | timeoutError
  | otherError
  | httpResponse (status : Nat) (body : List RasaResponse)
deriving Repr, DecidableEq

/-- The network oracle: the outcome of posting the payload
(sender, message) to one url. -/
def Net := String → String → String → AttemptOutcome

/-- An outcome on which the send_message loop advances to the next url:
a raised transport error, a raised timeout, any other raised exception,
or a non-200 status. -/
def AttemptOutcome.isHardFail : AttemptOutcome → Bool
  | .httpResponse status _ => status != 200
  | _ => true

/-- RasaClient.rasa_url set in RasaClient.__init__. -/
def rasa_url : String := "http://localhost:5005"

/-- RasaClient.fallback_urls set in RasaClient.__init__. -/
def fallback_urls : List String :=
  ["http://localhost:5005", "http://127.0.0.1:5005", "http://rasa:5005"]

/-- urls_to_try as computed at the top of RasaClient.send_message:
[self.rasa_url] + self.fallback_urls. -/
def urls_to_try : List String := rasa_url :: fallback_urls

/-- RasaClient._create_fallback_response: the synthesized reply used when
Rasa is unavailable or returns no responses. -/
def create_fallback_response : RasaResponse :=
  { text := some "I\x27m having trouble processing your message right now. How can I help you with your health concerns?",
    buttons := some
      [{ title := "Report Symptoms", payload := "/report_symptoms" },
       { title := "Book Appointment", payload := "/book_appointment" },
       { title := "Get Advice", payload := "/get_health_advice" }] }

/-- The for-loop of RasaClient.send_message over the remaining urls.
For each url: a 200 response with a non-empty body returns its first
element; a 200 response with an empty body returns the fallback
immediately; a non-200 status or a raised exception advances to the
next url; an exhausted list returns the fallback. -/
def send_message_loop (net : Net) (message sender : String) : List String → RasaResponse
  | [] => create_fallback_response
  | url :: rest =>
    match net url sender message with
    | .httpResponse status body =>
      if status = 200 then
        match body with
        | r :: _ => r
        | [] => create_fallback_response
      else send_message_loop net message sender rest
    | _ => send_message_loop net message sender rest

/-- RasaClient.send_message(message, sender): iterate urls_to_try in
order. Total by construction: it always returns a reply and never
raises to its caller. -/
def send_message (net : Net) (message sender : String) : RasaResponse :=
  send_message_loop net message sender urls_to_try

/-- The urls that the send_message loop actually attempts, in the order
it attempts them, over a given url list. -/
def attempted_urls (net : Net) (message sender : String) : List String → List String
  | [] => []
  | url :: rest =>
    match net url sender message with
    | .httpResponse status _ =>
      if status = 200 then [url]
      else url :: attempted_urls net message sender rest
    | _ => url :: attempted_urls net message sender rest

/-- A websocket connection handle; each accepted websocket is a distinct
process-local object, modelled by an opaque numeric identity. -/
abbrev WebSocketId := Nat

/-- The ConnectionManager of main.py: its mutable state is the list
active_connections. -/
structure ConnectionManager where
  active_connections : List WebSocketId := []
deriving Repr, DecidableEq

/-- ConnectionManager.connect: accept the websocket and append it to
active_connections. -/
def ConnectionManager.connect (m : ConnectionManager) (ws : WebSocketId) : ConnectionManager :=
  { active_connections := m.active_connections ++ [ws] }

/-- ConnectionManager.disconnect: if the websocket is in
active_connections, remove it (Python list.remove deletes the first
occurrence); otherwise do nothing. -/
def ConnectionManager.disconnect (m : ConnectionManager) (ws : WebSocketId) : ConnectionManager :=
  if ws ∈ m.active_connections then
    { active_connections := m.active_connections.erase ws }
  else m

/-- ConnectionManager.send_personal_message: attempt
websocket.send_text; writeOk models whether that transport write
completes without raising. On a raised exception the except branch
logs and calls self.disconnect(websocket). The method returns normally
in both cases and its Python return value is None on both paths,
modelled by the Unit second component; the first component is the
updated registry state. -/
def ConnectionManager.send_personal_message (m : ConnectionManager) (ws : WebSocketId)
    (writeOk : Bool) : ConnectionManager × Unit :=
  if writeOk then (m, ())
  else (m.disconnect ws, ())

/-- The result of applying json.loads to one received text frame in
websocket_chat_endpoint. unparseable models a payload on which
json.loads raises (or whose decoded value is not a dict, so that the
subsequent .get attribute access raises); parsed carries the dict fields
the loop reads: the type tag (none when the key is absent), the message
field read with default empty string, and the isTyping field read with
default false. -/
inductive InboundPayload where
  | unparseable
  | parsed (tag : Option String) (message : String) (isTyping : Bool)
deriving Repr, DecidableEq

/-- An outbound JSON frame written by websocket_chat_endpoint. -/
inductive OutboundFrame where
  | systemFrame (message : String) (timestamp : String)
  | userEcho (message : String) (timestamp : String)
  | botMessage (message : String) (buttons : List Button) (timestamp : String)
  | typingFrame (isTyping : Bool) (timestamp : String)
deriving Repr, DecidableEq

/-- Whether the per-connection receive loop of websocket_chat_endpoint
is still running (active) or has exited (closed). -/
inductive ConnState where
  | active
  | closed
deriving Repr, DecidableEq

/-- The observable effect of handling one inbound frame: the updated
connection registry, the outbound frames the loop passed to
send_personal_message in order, and whether the loop is still running. -/
structure WsStepResult where
  manager : ConnectionManager
  sent : List OutboundFrame
  state : ConnState
deriving Repr, DecidableEq

/-- One iteration of the while-loop of websocket_chat_endpoint on an
already-connected websocket, given the json.loads view of the received
frame. A tag of "message" echoes the user message, dispatches to Rasa
and sends the bot reply; a tag of "typing" sends a typing frame back;
any other parsed frame matches no branch and the loop silently
continues. An unparseable payload raises out of the while-loop; the
except handler at the bottom of websocket_chat_endpoint then calls
manager.disconnect(websocket) and the handler returns, ending the
connection. writeOk models whether transport writes succeed; now is
the timestamp taken at emission time. -/
def websocket_loop_step (net : Net) (m : ConnectionManager) (session_id : String)
    (ws : WebSocketId) (writeOk : Bool) (now : String) :
    InboundPayload → WsStepResult
  | .unparseable =>
    { manager := m.disconnect ws, sent := [], state := .closed }
  | .parsed tag message isTyping =>
    if tag = some "message" then
      let step1 := m.send_personal_message ws writeOk
      let reply := send_message net message session_id
      let step2 := step1.1.send_personal_message ws writeOk
      { manager := step2.1,
        sent := [.userEcho message now,
                 .botMessage (reply.text.getD "") (reply.buttons.getD []) now],
        state := .active }
    else if tag = some "typing" then
      let step1 := m.send_personal_message ws writeOk
      { manager := step1.1,
        sent := [.typingFrame isTyping now],
        state := .active }
    else
      { manager := m, sent := [], state := .active }

/-- The JSON body of a POST /api/v1/chat request, keeping the two keys
the handler reads; none models an absent key. -/
structure ChatRequest where
  message : Option String := none
  session_id : Option String := none
deriving Repr, DecidableEq

/-- request.get("message", "") in chat_endpoint. -/
def ChatRequest.messageText (r : ChatRequest) : String :=
  r.message.getD ""

/-- request.get("session_id", "default_session") in chat_endpoint. -/
def ChatRequest.sessionId (r : ChatRequest) : String :=
  r.session_id.getD "default_session"

/-- The response of chat_endpoint: either the 200 response_data dict with
its four keys, or a JSONResponse with a status code, an error string and
an optional detail string. -/
inductive ChatResponse where
  | ok (text : String) (buttons : List Button) (session_id : String) (timestamp : String)
  | jsonError (status : Nat) (error : String) (detail : Option String)
deriving Repr, DecidableEq

/-- The HTTP status of a ChatResponse (FastAPI returns 200 for a plain
dict result). -/
def ChatResponse.status : ChatResponse → Nat
  | .ok _ _ _ _ => 200
  | .jsonError s _ _ => s

/-- The chat_endpoint handler for POST /api/v1/chat. exc models an
unexpected exception raised inside the try block after the message
validation (for instance while contacting Rasa or while building and
serializing the response); some e carries str(e), and the except branch
turns it into the 500 JSONResponse. now is datetime.utcnow().isoformat().
An empty or absent message is rejected with the 400 JSONResponse before
any of that work. -/
def chat_endpoint (net : Net) (req : ChatRequest) (exc : Option String)
    (now : String) : ChatResponse :=
  let message := req.messageText
  let session_id := req.sessionId
  if message = "" then
    .jsonError 400 "Message is required" none
  else
    match exc with
    | some e => .jsonError 500 "Internal server error" (some e)
    | none =>
      let rasa_response := send_message net message session_id
      .ok (rasa_response.text.getD "") (rasa_response.buttons.getD []) session_id now

/-- A network oracle for concrete instances: every url unreachable. -/
def netAllDown : Net := fun _ _ _ => .connectError

/-- A network oracle for concrete instances: url "u2" answers 200 with an
empty body, every other url raises a connect error. -/
def netEmptyAtU2 : Net :=
  fun url _ _ => if url = "u2" then .httpResponse 200 [] else .connectError

/-- A network oracle for concrete instances: url "u2" answers 200 with one
reply, every other url raises a connect error. -/
def netReplyAtU2 : Net :=
  fun url _ _ =>
    if url = "u2" then .httpResponse 200 [{ text := some "Hello" }]
    else .connectError

/-- emergency_symptoms in ActionAssessSymptoms.run. -/
def emergency_symptoms : List String :=
  ["chest pain", "difficulty breathing", "severe bleeding", "heart attack"]

/-- high_priority in ActionAssessSymptoms.run. -/
def high_priority : List String :=
  ["severe pain", "high fever", "vomiting blood"]

/-- combined_text in ActionAssessSymptoms.run:
" ".join(symptoms).lower() followed by a space and the lowercased
latest user message (the Python conditional on empty symptoms is
equivalent, since joining an empty list yields the empty string). -/
def combined_text (symptoms : List String) (latest_message : String) : String :=
  pyLower (joinWithSpace symptoms) ++ " " ++ pyLower latest_message

/-- The urgency_level slot value computed by ActionAssessSymptoms.run on
a symptom list and the latest user message: emergency if any emergency
keyword is a substring of the combined text, else high if any
high-priority keyword is, else medium if the symptom list is non-empty
with more than one entry, else low. Total by construction: unmatched or
empty input yields low. -/
def action_assess_symptoms (symptoms : List String) (latest_message : String) : String :=
  let ct := combined_text symptoms latest_message
  if emergency_symptoms.any (fun k => strContains ct k) then "emergency"
  else if high_priority.any (fun k => strContains ct k) then "high"
  else if !symptoms.isEmpty && decide (symptoms.length > 1) then "medium"
  else "low"

theorem send_message_loop_cons_fail (net : Net) (message sender url : String)
    (rest : List String) (h : (net url sender message).isHardFail = true) :
    send_message_loop net message sender (url :: rest) =
      send_message_loop net message sender rest := by
  cases ho : net url sender message with
  | httpResponse status body =>
    have hne : status ≠ 200 := by
      rw [ho] at h
      simpa [AttemptOutcome.isHardFail, bne_iff_ne] using h
    simp only [send_message_loop, ho]
    rw [if_neg hne]
  | connectError => simp [send_message_loop, ho]
  | timeoutError => simp [send_message_loop, ho]
  | otherError => simp [send_message_loop, ho]

theorem attempted_urls_cons_fail (net : Net) (message sender url : String)
    (rest : List String) (h : (net url sender message).isHardFail = true) :
    attempted_urls net message sender (url :: rest) =
      url :: attempted_urls net message sender rest := by
  cases ho : net url sender message with
  | httpResponse status body =>
    have hne : status ≠ 200 := by
      rw [ho] at h
      simpa [AttemptOutcome.isHardFail, bne_iff_ne] using h
    simp only [attempted_urls, ho]
    rw [if_neg hne]
  | connectError => simp [attempted_urls, ho]
  | timeoutError => simp [attempted_urls, ho]
  | otherError => simp [attempted_urls, ho]

theorem send_message_loop_all_fail (net : Net) (message sender : String)
    (l : List String) (h : ∀ u ∈ l, (net u sender message).isHardFail = true) :
    send_message_loop net message sender l = create_fallback_response := by
  induction l with
  | nil => rfl
  | cons u us ih =>
    rw [send_message_loop_cons_fail net message sender u us (h u (by simp))]
    exact ih fun x hx => h x (by simp [hx])

/-- Claim C3: if dispatch reaches an endpoint that responds with success
status but an empty reply collection after a prefix of failing endpoints,
it returns the synthesized fallback reply immediately and attempts no
subsequent endpoint in the list. -/
theorem c3_empty_reply_short_circuits (net : Net) (message sender url : String)
    (pre rest : List String)
    (hpre : ∀ u ∈ pre, (net u sender message).isHardFail = true)
    (hurl : net url sender message = .httpResponse 200 []) :
    send_message_loop net message sender (pre ++ url :: rest) = create_fallback_response
    ∧ attempted_urls net message sender (pre ++ url :: rest) = pre ++ [url] := by
  induction pre with
  | nil =>
    refine ⟨?_, ?_⟩
    · simp [send_message_loop, hurl]
    · simp [attempted_urls, hurl]
  | cons u us ih =>
    obtain ⟨ih1, ih2⟩ := ih fun x hx => hpre x (by simp [hx])
    have hu : (net u sender message).isHardFail = true := hpre u (by simp)
    refine ⟨?_, ?_⟩
    · rw [List.cons_append, send_message_loop_cons_fail net message sender u _ hu, ih1]
    · rw [List.cons_append, attempted_urls_cons_fail net message sender u _ hu, ih2]
      simp

/-- Witness for C3 at a concrete endpoint list and network. -/
theorem c3_witness :
    send_message_loop netEmptyAtU2 "m" "s" (["u1"] ++ "u2" :: ["u3"]) = create_fallback_response
    ∧ attempted_urls netEmptyAtU2 "m" "s" (["u1"] ++ "u2" :: ["u3"]) = ["u1"] ++ ["u2"] :=
  c3_empty_reply_short_circuits netEmptyAtU2 "m" "s" "u2" ["u1"] ["u3"]
    (by decide) (by decide)

/-- Claim C4: dispatch is total (never raises to its caller, being a total
function of the embedded state), and when every endpoint in the list fails
by transport error, timeout or non-success status it returns the
synthesized fallback reply: the fixed reassurance text and exactly three
suggested actions (report symptoms, book appointment, get advice). -/
theorem c4_all_fail_returns_fallback (net : Net) (message sender : String)
    (h : ∀ u ∈ urls_to_try, (net u sender message).isHardFail = true) :
    send_message net message sender = create_fallback_response
    ∧ create_fallback_response.text =
        some "I\x27m having trouble processing your message right now. How can I help you with your health concerns?"
    ∧ create_fallback_response.buttons = some
        [{ title := "Report Symptoms", payload := "/report_symptoms" },
         { title := "Book Appointment", payload := "/book_appointment" },
         { title := "Get Advice", payload := "/get_health_advice" }]
    ∧ (create_fallback_response.buttons.getD []).length = 3 :=
  ⟨send_message_loop_all_fail net message sender urls_to_try h, rfl, rfl, rfl⟩

/-- Witness for C4 with every url unreachable. -/
theorem c4_witness :
    send_message netAllDown "m" "s" = create_fallback_response
    ∧ create_fallback_response.text =
        some "I\x27m having trouble processing your message right now. How can I help you with your health concerns?"
    ∧ create_fallback_response.buttons = some
        [{ title := "Report Symptoms", payload := "/report_symptoms" },
         { title := "Book Appointment", payload := "/book_appointment" },
         { title := "Get Advice", payload := "/get_health_advice" }]
    ∧ (create_fallback_response.buttons.getD []).length = 3 :=
  c4_all_fail_returns_fallback netAllDown "m" "s" (by decide)

/-- Claim C5: when the first N endpoints fail by transport error, timeout
or non-success status and the next endpoint returns success with a
non-empty reply collection, dispatch returns exactly the first reply of
that endpoint, having attempted exactly the first N+1 endpoints in list
order. -/
theorem c5_first_success_in_order (net : Net) (message sender url : String)
    (pre rest : List String) (r : RasaResponse) (rs : List RasaResponse)
    (hpre : ∀ u ∈ pre, (net u sender message).isHardFail = true)
    (hurl : net url sender message = .httpResponse 200 (r :: rs)) :
    send_message_loop net message sender (pre ++ url :: rest) = r
    ∧ attempted_urls net message sender (pre ++ url :: rest) = pre ++ [url] := by
  induction pre with
  | nil =>
    refine ⟨?_, ?_⟩
    · simp [send_message_loop, hurl]
    · simp [attempted_urls, hurl]
  | cons u us ih =>
    obtain ⟨ih1, ih2⟩ := ih fun x hx => hpre x (by simp [hx])
    have hu : (net u sender message).isHardFail = true := hpre u (by simp)
    refine ⟨?_, ?_⟩
    · rw [List.cons_append, send_message_loop_cons_fail net message sender u _ hu, ih1]
    · rw [List.cons_append, attempted_urls_cons_fail net message sender u _ hu, ih2]
      simp

/-- Witness for C5: one unreachable endpoint, then one that answers. -/
theorem c5_witness :
    send_message_loop netReplyAtU2 "m" "s" (["u1"] ++ "u2" :: ["u3"]) = { text := some "Hello" }
    ∧ attempted_urls netReplyAtU2 "m" "s" (["u1"] ++ "u2" :: ["u3"]) = ["u1"] ++ ["u2"] :=
  c5_first_success_in_order netReplyAtU2 "m" "s" "u2" ["u1"] ["u3"] { text := some "Hello" } []
    (by decide) (by decide)

/-- Claim C9: send_message prepends the primary url to a fallback list
whose first element is the same primary url http://localhost:5005, so
when the primary fails it is attempted a second time before any distinct
fallback endpoint is tried. -/
theorem c9_primary_attempted_twice (net : Net) (message sender : String)
    (h : (net rasa_url sender message).isHardFail = true) :
    urls_to_try = rasa_url :: fallback_urls
    ∧ fallback_urls.head? = some rasa_url
    ∧ rasa_url = "http://localhost:5005"
    ∧ (attempted_urls net message sender urls_to_try).take 2 = [rasa_url, rasa_url] := by
  refine ⟨rfl, rfl, rfl, ?_⟩
  have e1 : urls_to_try =
      rasa_url :: rasa_url :: ["http://127.0.0.1:5005", "http://rasa:5005"] := rfl
  rw [e1, attempted_urls_cons_fail net message sender rasa_url _ h,
      attempted_urls_cons_fail net message sender rasa_url _ h]
  simp

/-- Witness for C9 with every url unreachable. -/
theorem c9_witness :
    urls_to_try = rasa_url :: fallback_urls
    ∧ fallback_urls.head? = some rasa_url
    ∧ rasa_url = "http://localhost:5005"
    ∧ (attempted_urls netAllDown "m" "s" urls_to_try).take 2 = [rasa_url, rasa_url] :=
  c9_primary_attempted_twice netAllDown "m" "s" (by decide)

/-- Claim C2 counterexample: send_personal_message does not report
failure to its caller. At the concrete registry [5, 9] with websocket 5,
the value the method returns to its caller after a failed transport
write is exactly the value it returns after a successful one — the
Python method returns None on both paths — so the caller observes no
failure indication, contradicting the claim that a write failure is
reported to the caller. -/
theorem c2_counterexample :
    ((⟨[5, 9]⟩ : ConnectionManager).send_personal_message 5 false).2 =
      ((⟨[5, 9]⟩ : ConnectionManager).send_personal_message 5 true).2
    ∧ ((⟨[5, 9]⟩ : ConnectionManager).send_personal_message 5 false).1 ≠
        ((⟨[5, 9]⟩ : ConnectionManager).send_personal_message 5 true).1 := by
  refine ⟨rfl, ?_⟩
  decide

/-- Claim C2 amended: when the transport write of send_personal_message
fails, the websocket is absent from active_connections afterward (a
write failure acts as an implicit disconnect) and the method returns
normally rather than raising; but it returns None on both the failure
and the success path, so no failure indication is reported to the
caller. The Nodup hypothesis holds for every reachable registry state,
since each accepted websocket is a distinct object appended once by
connect. -/
theorem c2_amended_write_failure_unregisters (m : ConnectionManager) (ws : WebSocketId)
    (hmem : ws ∈ m.active_connections) (hnd : m.active_connections.Nodup) :
    ws ∉ (m.send_personal_message ws false).1.active_connections
    ∧ (m.send_personal_message ws false).2 = (m.send_personal_message ws true).2 := by
  refine ⟨?_, rfl⟩
  have hconn : (m.send_personal_message ws false).1.active_connections =
      m.active_connections.erase ws := by
    simp [ConnectionManager.send_personal_message, ConnectionManager.disconnect, hmem]
  rw [hconn]
  intro hin
  exact ((List.Nodup.mem_erase_iff hnd).mp hin).1 rfl

/-- Witness for the amended C2 at a concrete two-connection registry. -/
theorem c2_amended_witness :
    5 ∉ ((⟨[5, 9]⟩ : ConnectionManager).send_personal_message 5 false).1.active_connections
    ∧ ((⟨[5, 9]⟩ : ConnectionManager).send_personal_message 5 false).2 =
        ((⟨[5, 9]⟩ : ConnectionManager).send_personal_message 5 true).2 :=
  c2_amended_write_failure_unregisters ⟨[5, 9]⟩ 5 (by decide) (by decide)

/-- Claim C1 counterexample: an inbound frame whose payload is not
parseable JSON (for instance the text frame "not json") is fatal to the
connection: json.loads raises, the exception escapes the while-loop, and
the except handler disconnects the websocket, so the loop does not stay
active and the connection is removed from the registry — contradicting
the claim that any malformed frame is logged, ignored and never fatal. -/
theorem c1_counterexample :
    (websocket_loop_step netAllDown ⟨[7]⟩ "s1" 7 true "t0" .unparseable).state = .closed
    ∧ 7 ∉ (websocket_loop_step netAllDown ⟨[7]⟩ "s1" 7 true "t0"
        .unparseable).manager.active_connections := by
  decide

/-- Claim C1 amended: a frame that parses to a dict with an unrecognized
type tag is ignored — the loop stays active, the registry is unchanged
and nothing is sent — but a frame whose payload fails JSON parsing
terminates the loop: the websocket is disconnected from the registry and
the handler returns, closing that one connection only. -/
theorem c1_amended_malformed_frames (net : Net) (m : ConnectionManager)
    (session_id : String) (ws : WebSocketId) (writeOk : Bool) (now : String)
    (tag : Option String) (msg : String) (ty : Bool)
    (h1 : tag ≠ some "message") (h2 : tag ≠ some "typing") :
    (websocket_loop_step net m session_id ws writeOk now (.parsed tag msg ty)).state = .active
    ∧ (websocket_loop_step net m session_id ws writeOk now (.parsed tag msg ty)).manager = m
    ∧ (websocket_loop_step net m session_id ws writeOk now (.parsed tag msg ty)).sent = []
    ∧ (websocket_loop_step net m session_id ws writeOk now .unparseable).state = .closed
    ∧ (websocket_loop_step net m session_id ws writeOk now .unparseable).manager =
        m.disconnect ws := by
  simp [websocket_loop_step, h1, h2]

/-- Witness for the amended C1 at a concrete frame with tag "bogus". -/
theorem c1_witness :
    (websocket_loop_step netAllDown ⟨[7]⟩ "s1" 7 true "t0"
      (.parsed (some "bogus") "" false)).state = .active
    ∧ (websocket_loop_step netAllDown ⟨[7]⟩ "s1" 7 true "t0"
        (.parsed (some "bogus") "" false)).manager = ⟨[7]⟩
    ∧ (websocket_loop_step netAllDown ⟨[7]⟩ "s1" 7 true "t0"
        (.parsed (some "bogus") "" false)).sent = []
    ∧ (websocket_loop_step netAllDown ⟨[7]⟩ "s1" 7 true "t0" .unparseable).state = .closed
    ∧ (websocket_loop_step netAllDown ⟨[7]⟩ "s1" 7 true "t0" .unparseable).manager =
        ConnectionManager.disconnect ⟨[7]⟩ 7 :=
  c1_amended_malformed_frames netAllDown ⟨[7]⟩ "s1" 7 true "t0" (some "bogus") "" false
    (by decide) (by decide)

/-- Claim C6: any input whose lowercased combined search text contains an
emergency keyword as a substring is classified emergency, regardless of
other keywords present or of the symptom count. -/
theorem c6_emergency_dominates (symptoms : List String) (latest_message : String)
    (h : ∃ k ∈ emergency_symptoms,
      strContains (combined_text symptoms latest_message) k = true) :
    action_assess_symptoms symptoms latest_message = "emergency" := by
  obtain ⟨k, hk, hc⟩ := h
  have hany : emergency_symptoms.any
      (fun k => strContains (combined_text symptoms latest_message) k) = true :=
    List.any_eq_true.mpr ⟨k, hk, hc⟩
  simp [action_assess_symptoms, hany]

/-- Witness for C6: a symptom list matching both an emergency and a
high-priority keyword, with more than one entry, is still emergency. -/
theorem c6_witness :
    action_assess_symptoms ["Chest Pain", "high fever"] "help" = "emergency" :=
  c6_emergency_dominates ["Chest Pain", "high fever"] "help" (by decide)

/-- Claim C7: when no emergency and no high-priority keyword occurs in
the combined search text, a symptom list with at most one entry is
classified low and one with more than one entry is classified medium;
the classifier is a total function, so unmatched or empty input never
fails. -/
theorem c7_no_keyword_tiers (symptoms : List String) (latest_message : String)
    (hne : ∀ k ∈ emergency_symptoms,
      strContains (combined_text symptoms latest_message) k = false)
    (hnh : ∀ k ∈ high_priority,
      strContains (combined_text symptoms latest_message) k = false) :
    (symptoms.length ≤ 1 → action_assess_symptoms symptoms latest_message = "low")
    ∧ (1 < symptoms.length → action_assess_symptoms symptoms latest_message = "medium") := by
  have hany1 : emergency_symptoms.any
      (fun k => strContains (combined_text symptoms latest_message) k) = false := by
    rw [Bool.eq_false_iff]
    intro hcon
    obtain ⟨k, hk, hc⟩ := List.any_eq_true.mp hcon
    rw [hne k hk] at hc
    exact Bool.false_ne_true hc
  have hany2 : high_priority.any
      (fun k => strContains (combined_text symptoms latest_message) k) = false := by
    rw [Bool.eq_false_iff]
    intro hcon
    obtain ⟨k, hk, hc⟩ := List.any_eq_true.mp hcon
    rw [hnh k hk] at hc
    exact Bool.false_ne_true hc
  constructor
  · intro hlen
    have hdec : decide (symptoms.length > 1) = false :=
      decide_eq_false (by omega)
    simp [action_assess_symptoms, hany1, hany2, hdec]
  · intro hlen
    have hdec : decide (symptoms.length > 1) = true := decide_eq_true hlen
    have hlist : symptoms.isEmpty = false := by
      cases symptoms with
      | nil => simp at hlen
      | cons a as => rfl
    simp [action_assess_symptoms, hany1, hany2, hdec, hlist]

/-- Witness for C7: one unmatched symptom is low, two unmatched symptoms
are medium. -/
theorem c7_witness :
    action_assess_symptoms ["headache"] "mild headache" = "low"
    ∧ action_assess_symptoms ["headache", "nausea"] "" = "medium" :=
  ⟨(c7_no_keyword_tiers ["headache"] "mild headache" (by decide) (by decide)).1 (by decide),
   (c7_no_keyword_tiers ["headache", "nausea"] "" (by decide) (by decide)).2 (by decide)⟩

/-- Claim C8: the chat endpoint returns 400 with an error payload when
the message is empty or missing; returns 200 with text, buttons,
session_id and timestamp all present when the message is non-empty and
dispatch returns a reply; and returns 500 when an unexpected exception
occurs while handling the request. -/
theorem c8_chat_endpoint_contract (net : Net) (req : ChatRequest)
    (exc : Option String) (e : String) (now : String) :
    (req.messageText = "" →
      chat_endpoint net req exc now = .jsonError 400 "Message is required" none)
    ∧ (req.messageText ≠ "" →
      chat_endpoint net req none now =
        .ok ((send_message net req.messageText req.sessionId).text.getD "")
            ((send_message net req.messageText req.sessionId).buttons.getD [])
            req.sessionId now
      ∧ (chat_endpoint net req none now).status = 200)
    ∧ (req.messageText ≠ "" →
      chat_endpoint net req (some e) now = .jsonError 500 "Internal server error" (some e)
      ∧ (chat_endpoint net req (some e) now).status = 500) := by
  refine ⟨fun h => ?_, fun h => ⟨?_, ?_⟩, fun h => ⟨?_, ?_⟩⟩
  · simp [chat_endpoint, h]
  · simp [chat_endpoint, h]
  · simp [chat_endpoint, h, ChatResponse.status]
  · simp [chat_endpoint, h]
  · simp [chat_endpoint, h, ChatResponse.status]

/-- Witness for C8: an empty request is rejected with 400; a request with
message "hi" against an unreachable backend gets the 200 response built
from the fallback reply; the same request under an unexpected exception
gets 500. -/
theorem c8_witness :
    chat_endpoint netAllDown ⟨none, none⟩ none "t0" = .jsonError 400 "Message is required" none
    ∧ (chat_endpoint netAllDown ⟨some "hi", some "s1"⟩ none "t0" =
        .ok ((send_message netAllDown "hi" "s1").text.getD "")
            ((send_message netAllDown "hi" "s1").buttons.getD [])
            "s1" "t0"
      ∧ (chat_endpoint netAllDown ⟨some "hi", some "s1"⟩ none "t0").status = 200)
    ∧ ((chat_endpoint netAllDown ⟨some "hi", some "s1"⟩ (some "boom") "t0").status = 500) :=
  ⟨(c8_chat_endpoint_contract netAllDown ⟨none, none⟩ none "boom" "t0").1 rfl,
   (c8_chat_endpoint_contract netAllDown ⟨some "hi", some "s1"⟩ none "boom" "t0").2.1 (by decide),
   ((c8_chat_endpoint_contract netAllDown ⟨some "hi", some "s1"⟩ none "boom" "t0").2.2
     (by decide)).2⟩

/-- Claim C10: a request body without a session_id field gets the
constant default_session both as the sender passed to dispatch and as
the session_id echoed in the response, and a missing session_id is never
rejected: the 400 validation applies only to the message field. -/
theorem c10_missing_session_defaults (net : Net) (req : ChatRequest) (now : String)
    (hs : req.session_id = none) (hm : req.messageText ≠ "") :
    req.sessionId = "default_session"
    ∧ chat_endpoint net req none now =
        .ok ((send_message net req.messageText "default_session").text.getD "")
            ((send_message net req.messageText "default_session").buttons.getD [])
            "default_session" now
    ∧ (chat_endpoint net req none now).status = 200 := by
  have hdef : req.sessionId = "default_session" := by
    simp [ChatRequest.sessionId, hs]
  refine ⟨hdef, ?_, ?_⟩
  · simp [chat_endpoint, hm, hdef]
  · simp [chat_endpoint, hm, ChatResponse.status]

/-- Witness for C10 at a concrete request lacking session_id. -/
theorem c10_witness :
    (⟨some "hello", none⟩ : ChatRequest).sessionId = "default_session"
    ∧ chat_endpoint netAllDown ⟨some "hello", none⟩ none "t0" =
        .ok ((send_message netAllDown "hello" "default_session").text.getD "")
            ((send_message netAllDown "hello" "default_session").buttons.getD [])
            "default_session" "t0"
    ∧ (chat_endpoint netAllDown ⟨some "hello", none⟩ none "t0").status = 200 :=
  c10_missing_session_defaults netAllDown ⟨some "hello", none⟩ "t0" rfl (by decide)

end HealthcareChatbot
